import Mathlib

/-!
Shallow embedding of the crawl-and-audit engine of the website-audit-tool
repository (src/web-app/website_auditor.py and src/backend/website-auditor.py),
together with proofs about the claims of its specification.

Modelling conventions:
* Python strings are `String`, Python lists are `List`, Python sets are
  `List` maintained duplicate-free through `List.insert` / membership guards.
* Machine/float arithmetic is modelled exactly over `Nat`/`Int`/`Rat`;
  Python `max(0, a - b)` over nonnegative integers is Nat subtraction, and
  `int(x)` on a nonnegative value is the floor, i.e. Nat division for exact
  rationals with denominator 100.
* The HTML parse (BeautifulSoup) is abstracted: a fetched response carries
  the parsed document `Doc` directly, plus the byte length of its body.
* Wall-clock dependent fields of the Python code (load times, fcp/lcp/cls)
  are not modelled; no claim depends on them.
-/

namespace Audit

/-- Python truthiness of an optional string attribute: `None` and the empty
string are falsy (mirrors `not img.get('alt')` etc.). -/
def truthy : Option String → Bool
  | none => false
  | some s => s ≠ ""

/-- Replace every non-overlapping occurrence of `pat` in the character
list, scanning left to right, fuelled by the list length (each step
consumes at least one character, so the fuel never runs out). -/
def replaceCharsAux (pat repl : List Char) : Nat → List Char → List Char
  | 0, l => l
  | _ + 1, [] => []
  | n + 1, c :: rest =>
    if pat ≠ [] ∧ pat.isPrefixOf (c :: rest) then
      repl ++ replaceCharsAux pat repl n ((c :: rest).drop pat.length)
    else c :: replaceCharsAux pat repl n rest

/-- Python `str.replace` (all occurrences, left to right); implemented over
character lists because the core implementation does not reduce in the
kernel. Callers of this development never pass an empty pattern. -/
def strReplace (s pat repl : String) : String :=
  ⟨replaceCharsAux pat.data repl.data s.data.length s.data⟩

/-- Split a character list at the first occurrence of `c`: the part before
it and, when present, the part after it. -/
def breakOnChar (c : Char) : List Char → List Char × Option (List Char)
  | [] => ([], none)
  | d :: rest =>
    if d = c then ([], some rest)
    else
      let (a, b) := breakOnChar c rest
      (d :: a, b)

/-- Split a character list at the first occurrence of the subsequence
`pat`: the part before it and the part after it, when `pat` occurs. -/
def breakOnSeqAux (pat : List Char) : Nat → List Char → Option (List Char × List Char)
  | 0, _ => none
  | _ + 1, [] => none
  | n + 1, c :: rest =>
    if pat.isPrefixOf (c :: rest) then some ([], (c :: rest).drop pat.length)
    else (breakOnSeqAux pat n rest).map (fun p => (c :: p.1, p.2))

def breakOnSeq (pat l : List Char) : Option (List Char × List Char) :=
  breakOnSeqAux pat (l.length + 1) l

/-- Python `str.startswith`, over character lists. -/
def strStartsWith (s pre : String) : Bool :=
  pre.data.isPrefixOf s.data

/-- An `img` element: its `alt` and `src` attributes. -/
structure Img where
  alt : Option String
  src : Option String
deriving DecidableEq, Repr

/-- A `link rel=stylesheet` element: its `media` attribute. -/
structure Stylesheet where
  media : Option String
deriving DecidableEq, Repr

/-- A `script` element carrying a `src` attribute: its `async` and `defer`
attributes. -/
structure ScriptTag where
  asyncAttr : Option String
  deferAttr : Option String
deriving DecidableEq, Repr

/-- The parsed document features consumed by the issue detectors and the
link extractor of `crawl_page`. `titleTag`: outer `none` = no `<title>` tag,
inner option = `title.string`. `metaDescription`: outer `none` = no
`<meta name=description>` tag, inner option = its `content` attribute. -/
structure Doc where
  titleTag : Option (Option String)
  metaDescription : Option (Option String)
  h1Count : Nat
  canonical : Bool
  viewport : Bool
  imgs : List Img
  stylesheets : List Stylesheet
  scripts : List ScriptTag
  anchors : List String
deriving DecidableEq, Repr

/-- An issue record. The free-text fields of the Python dicts
(`current`, `fix`, `details`, `recommendation`, `examples`) are omitted:
no claim depends on them. `url`/`page` are optional because the
security-header detector omits those keys. -/
structure Issue where
  type : String
  category : String
  title : String
  url : Option String
  page : Option String
deriving DecidableEq, Repr

/-- Python `url.replace(self.base_url, '') or '/'`. -/
def pageOf (baseUrl url : String) : String :=
  let p := strReplace url baseUrl ""
  if p = "" then "/" else p

/-- Embedding of `check_seo_elements` (src/web-app/website_auditor.py,
lines 175-251). -/
def check_seo_elements (baseUrl : String) (soup : Doc) (url : String) : List Issue :=
  let page := pageOf baseUrl url
  (match soup.titleTag with
   | none => [⟨"warning", "SEO", "Missing page title", some url, some page⟩]
   | some ts =>
     if ¬ truthy ts then
       [⟨"warning", "SEO", "Missing page title", some url, some page⟩]
     else if (ts.getD "").length > 60 then
       [⟨"info", "SEO", "Page title too long", some url, some page⟩]
     else []) ++
  (match soup.metaDescription with
   | none => [⟨"warning", "SEO", "Missing meta description", some url, some page⟩]
   | some c =>
     if ¬ truthy c then
       [⟨"warning", "SEO", "Missing meta description", some url, some page⟩]
     else []) ++
  (if soup.h1Count = 0 then
     [⟨"warning", "SEO", "No H1 tag found", some url, some page⟩]
   else if soup.h1Count > 1 then
     [⟨"info", "SEO", "Multiple H1 tags", some url, some page⟩]
   else []) ++
  (if ¬ soup.canonical then
     [⟨"info", "SEO", "Missing canonical tag", some url, some page⟩]
   else [])

/-- Embedding of `check_images` (lines 253-278). -/
def check_images (baseUrl : String) (soup : Doc) (url : String) : List Issue :=
  let missingAlt := (soup.imgs.filter (fun i => ¬ truthy i.alt)).length
  if missingAlt > 0 then
    [⟨"warning", "Accessibility", "Images missing alt attributes",
      some url, some (pageOf baseUrl url)⟩]
  else []

/-- The fixed required security headers, in source order (lines 285-290). -/
def requiredHeaders : List String :=
  ["X-Content-Type-Options", "X-Frame-Options", "X-XSS-Protection",
   "Strict-Transport-Security"]

/-- Embedding of `check_security_headers` (lines 280-301); the response
headers are modelled by their list of names. -/
def check_security_headers (headers : List String) : List Issue :=
  (requiredHeaders.filter (fun h => ¬ headers.contains h)).map
    (fun h => ⟨"critical", "Security", "Missing security header: " ++ h,
      none, none⟩)

/-- Embedding of `check_mobile_viewport` (lines 303-315). -/
def check_mobile_viewport (baseUrl : String) (soup : Doc) (url : String) :
    List Issue :=
  if ¬ soup.viewport then
    [⟨"warning", "Mobile", "Missing viewport meta tag",
      some url, some (pageOf baseUrl url)⟩]
  else []

/-- Embedding of `check_render_blocking_resources` (lines 317-351). -/
def check_render_blocking_resources (baseUrl : String) (soup : Doc)
    (url : String) : List Issue :=
  let page := pageOf baseUrl url
  let blocking_css := soup.stylesheets.filter (fun l => ¬ truthy l.media)
  let blocking_scripts := soup.scripts.filter
    (fun s => ¬ truthy s.asyncAttr ∧ ¬ truthy s.deferAttr)
  (if blocking_css.length > 2 then
    [⟨"critical", "Performance", "Multiple render-blocking CSS files",
      some url, some page⟩]
   else []) ++
  (if blocking_scripts.length > 1 then
    [⟨"critical", "Performance", "Render-blocking JavaScript",
      some url, some page⟩]
   else [])

/-- The accumulated issue collection `self.issues`, a dict with the three
severity keys in insertion order critical, warnings, info. -/
structure IssuesState where
  critical : List Issue
  warnings : List Issue
  info : List Issue
deriving DecidableEq, Repr

/-- Iteration over `self.issues.values()`: critical, then warnings, then
info. -/
def IssuesState.all (i : IssuesState) : List Issue :=
  i.critical ++ i.warnings ++ i.info

/-- Status of a broken link: a numeric HTTP status or the string
`Failed to fetch`. -/
inductive BLStatus where
  | http (code : Nat)
  | failedFetch
deriving DecidableEq, Repr

/-- A broken-link record. -/
structure BrokenLink where
  url : String
  status : BLStatus
  page : String
  error : String
deriving DecidableEq, Repr

/-- The set of distinct issue titles recorded for one category, mirroring
the `defaultdict(set)` build in `calculate_score` /
`generate_recommendations`: the titles of the issues of that category,
duplicates collapsed. -/
def uniqueTitles (issues : List Issue) (cat : String) : List String :=
  ((issues.filter (fun i => i.category = cat)).map Issue.title).dedup

/-- The five scores. -/
structure Scores where
  overall : Nat
  performance : Nat
  seo : Nat
  accessibility : Nat
  bestPractices : Nat
deriving DecidableEq, Repr

/-- Embedding of `calculate_score` (lines 614-663). `max(0, 100 - k*n)` over
nonnegative integers is Nat subtraction; `int()` of the exact weighted sum
(a nonnegative rational with denominator 100) is Nat division by 100. -/
def calculate_score (issues : IssuesState) (brokenLinks : List BrokenLink) :
    Scores :=
  let all := issues.all
  let seo_unique := (uniqueTitles all "SEO").length
  let perf_unique := (uniqueTitles all "Performance").length
  let access_unique := (uniqueTitles all "Accessibility").length
  let security_unique := (uniqueTitles all "Security").length
  let mobile_unique := (uniqueTitles all "Mobile").length
  let broken_links_penalty := min (brokenLinks.length * 2) 30
  let seo_score := 100 - seo_unique * 20
  let performance_score := 100 - perf_unique * 25
  let accessibility_score := 100 - access_unique * 20
  let best_practices_score :=
    100 - security_unique * 15 - mobile_unique * 10 - broken_links_penalty
  { overall := (performance_score * 30 + seo_score * 25 +
      accessibility_score * 20 + best_practices_score * 25) / 100
    performance := performance_score
    seo := seo_score
    accessibility := accessibility_score
    bestPractices := best_practices_score }

/-- A recommendation entry. `affected_urls` is `none` when the Python dict
has no such key (the Security entry). -/
structure Recommendation where
  priority : String
  category : String
  title : String
  description : String
  affected_count : Nat
  affected_urls : Option (List String)
  recommendation : String
deriving DecidableEq, Repr

/-- The first five issue examples collected for one category by
`generate_recommendations` (lines 552-563): Python appends while iterating
all issues, capped at five per category. -/
def issueExamples (issues : List Issue) (cat : String) : List Issue :=
  (issues.filter (fun i => i.category = cat)).take 5

/-- The `affected_urls` sample drawn from the examples:
`issue.get('url', 'N/A')`. -/
def exampleUrls (issues : List Issue) (cat : String) : List String :=
  (issueExamples issues cat).map (fun i => i.url.getD "N/A")

/-- Embedding of `generate_recommendations` (src/web-app, lines 535-612).
Entries appear in source order: broken links, SEO, Performance, Security,
Accessibility; the Security entry has no `affected_urls` key. -/
def generate_recommendations (issues : IssuesState)
    (broken_links : List BrokenLink) : List Recommendation :=
  let all := issues.all
  (if broken_links.length > 0 then
    [{ priority := "critical", category := "Broken Links"
       title := toString broken_links.length ++ " broken links found"
       description := "Multiple pages are linking to non-existent resources"
       affected_count := broken_links.length
       affected_urls := some ((broken_links.take 10).map BrokenLink.url)
       recommendation := "Update or remove broken links. Set up proper 301 redirects for moved content. Check the broken links list for specific URLs to fix." }]
   else []) ++
  (if (uniqueTitles all "SEO").length > 0 then
    [{ priority := "warning", category := "SEO"
       title := toString (uniqueTitles all "SEO").length ++ " SEO issues found"
       description := "Missing or suboptimal meta tags and heading structure"
       affected_count := (uniqueTitles all "SEO").length
       affected_urls := some (exampleUrls all "SEO")
       recommendation := "Add unique meta descriptions to all pages, optimize title tags (keep under 60 characters), ensure proper heading hierarchy with single H1 per page" }]
   else []) ++
  (if (uniqueTitles all "Performance").length > 0 then
    [{ priority := "critical", category := "Performance"
       title := toString (uniqueTitles all "Performance").length ++ " performance issues found"
       description := "Render-blocking resources detected that slow down page load"
       affected_count := (uniqueTitles all "Performance").length
       affected_urls := some (exampleUrls all "Performance")
       recommendation := "Defer non-critical CSS/JS, add async/defer attributes to scripts, consider inlining critical CSS, implement lazy loading for images" }]
   else []) ++
  (if (uniqueTitles all "Security").length > 0 then
    [{ priority := "critical", category := "Security"
       title := toString (uniqueTitles all "Security").length ++ " security issues found"
       description := "Missing security headers leave site vulnerable"
       affected_count := (uniqueTitles all "Security").length
       affected_urls := none
       recommendation := "Configure server to include security headers: X-Content-Type-Options: nosniff, X-Frame-Options: SAMEORIGIN, Strict-Transport-Security, Content-Security-Policy" }]
   else []) ++
  (if (uniqueTitles all "Accessibility").length > 0 then
    [{ priority := "warning", category := "Accessibility"
       title := toString (uniqueTitles all "Accessibility").length ++ " accessibility issues found"
       description := "Images missing alt text, affecting screen reader users"
       affected_count := (uniqueTitles all "Accessibility").length
       affected_urls := some (exampleUrls all "Accessibility")
       recommendation := "Add descriptive alt text to all images, ensure proper color contrast, make interactive elements keyboard accessible" }]
   else [])

/-- Python `str.rstrip('/')`: drop all trailing slashes. -/
def rstripSlash (s : String) : String :=
  ⟨(s.data.reverse.dropWhile (· = '/')).reverse⟩

/-- Split a URL at its first `#`: the part before it and the fragment. -/
def splitFragment (s : String) : String × String :=
  match breakOnChar '#' s.data with
  | (a, none) => (⟨a⟩, "")
  | (a, some b) => (⟨a⟩, ⟨b⟩)

/-- The fields of `urllib.parse.urlparse` consumed by the engine. -/
structure ParsedUrl where
  netloc : String
  fragment : String
deriving DecidableEq, Repr

/-- Model of `urllib.parse.urlparse`, restricted to the two fields the
engine reads. The fragment is everything after the first `#`; the netloc is
the authority part after `://` up to the next `/` for absolute URLs, and
empty for relative references and non-hierarchical pseudo-schemes
(`javascript:`, `mailto:`, `tel:`), matching the stdlib on the URL shapes
exercised here. -/
def urlparse (s : String) : ParsedUrl :=
  let (base, frag) := splitFragment s
  match breakOnSeq "://".data base.data with
  | none => { netloc := "", fragment := frag }
  | some (_, after) => { netloc := ⟨after.takeWhile (· ≠ '/')⟩, fragment := frag }

/-- The `scheme://netloc` part of an absolute URL (fragment stripped). -/
def schemeNetloc (s : String) : String :=
  let (base, _) := splitFragment s
  match breakOnSeq "://".data base.data with
  | none => ""
  | some (scheme, after) =>
    ⟨scheme⟩ ++ "://" ++ (⟨after.takeWhile (· ≠ '/')⟩ : String)

/-- The base URL up to and including the last `/` of its path, used for
resolving relative references. -/
def dirOf (s : String) : String :=
  let (base, _) := splitFragment s
  ⟨(base.data.reverse.dropWhile (· ≠ '/')).reverse⟩

/-- Model of `urllib.parse.urljoin`, restricted to the href shapes
exercised in this development: non-hierarchical pseudo-schemes and absolute
URLs are returned unchanged, fragment-only references replace the base URL
fragment, root-relative paths are resolved against `scheme://netloc`, and
other relative paths against the base directory. -/
def urljoin (base href : String) : String :=
  if strStartsWith href "javascript:" ∨ strStartsWith href "mailto:" ∨
      strStartsWith href "tel:" then href
  else if (breakOnSeq "://".data href.data).isSome then href
  else if strStartsWith href "#" then (splitFragment base).1 ++ href
  else if strStartsWith href "/" then schemeNetloc base ++ href
  else if href = "" then base
  else dirOf base ++ href

/-- A fetched response as the engine consumes it: final URL, status code,
body byte length, header names, redirect-chain status codes, and the parsed
document. -/
structure Response where
  status_code : Nat
  contentLen : Nat
  url : String
  history : List Nat
  headers : List String
  doc : Doc
deriving DecidableEq, Repr

/-- A page-data record (`page_data` in `crawl_page`): `title` is
`soup.title.string if soup.title else 'No title'`, so `none` models a
present but string-less title tag. -/
structure PageData where
  url : String
  title : Option String
deriving DecidableEq, Repr

def Doc.pageTitle (soup : Doc) : Option String :=
  match soup.titleTag with
  | none => some "No title"
  | some ts => ts

/-- A redirect record. -/
structure RedirectRecord where
  fromUrl : String
  toUrl : String
  status_codes : List Nat
deriving DecidableEq, Repr

/-- The mutable crawl state owned by one audit. `fetchLog` is pure
instrumentation recording each invocation of the fetcher in order, used to
state fetch-count properties; it is not part of the Python object state. -/
structure CrawlState where
  visited : List String
  fetchLog : List String
  allLinks : List String
  brokenLinks : List BrokenLink
  redirects : List RedirectRecord
  externalLinks : List String
  pagesData : List PageData
  issues : IssuesState
deriving DecidableEq, Repr

/-- The empty initial state of a fresh `WebsiteAuditor`. -/
def initState : CrawlState :=
  { visited := [], fetchLog := [], allLinks := [], brokenLinks := []
    redirects := [], externalLinks := [], pagesData := []
    issues := { critical := [], warnings := [], info := [] } }

/-- Internal-link test of the Selenium engine (src/web-app, line 431):
`parsed.netloc == self.domain or not parsed.netloc`. -/
def webAppIsInternal (domain netloc : String) : Bool :=
  netloc == domain || netloc == ""

/-- Internal-link test of the backend engine (src/backend, lines 363-369),
with the `www` aliases computed as in its `__init__` (lines 22-23). -/
def backendIsInternal (domain netloc : String) : Bool :=
  let domain_without_www := strReplace domain "www." ""
  let domain_with_www :=
    if ¬ strStartsWith domain "www." then "www." ++ domain_without_www
    else domain
  netloc == domain || netloc == domain_without_www ||
    netloc == domain_with_www || netloc == ""

/-- Error-status policy of the Selenium engine (src/web-app, lines
384-394): record a broken link and skip parsing when the status is in the
error range and the body is under 1000 bytes. -/
def webAppRecordBroken (status contentLen : Nat) : Bool :=
  status ≥ 400 && contentLen < 1000

/-- Error-status check of the backend engine (src/backend, lines 307-318):
broken link for every error-range status except 415. For statuses 400-599
this code is unreachable: the falsy-response check at line 286 intercepts
them first (see `backendFalsy`); it could fire only for a status ≥ 600. -/
def backendRecordBroken (status _contentLen : Nat) : Bool :=
  status ≥ 400 && status ≠ 415

/-- Python truthiness of the fetched web-app response at `if not response:`
(src/web-app line 366): a present response is a `FakeResponse` instance,
a plain object with no `__bool__`/`__len__`, hence always truthy. -/
def webAppFalsy (_r : Response) : Bool := false

/-- Python truthiness of the fetched backend response at `if not response:`
(src/backend line 286): a present response is a `requests.Response`, whose
`__bool__` is `self.ok`, i.e. false exactly when `raise_for_status` would
raise — for every status in 400-599. Such responses take the
fetch-failure branch. -/
def backendFalsy (r : Response) : Bool :=
  400 ≤ r.status_code && r.status_code < 600

/-- The parameters distinguishing the two engines, plus the audit
configuration: the fetcher, the normalized base URL, the truthiness of a
present response, the internal-link classifier (closed over the seed
domain) and the error-status policy. -/
structure Engine where
  fetch : String → Option Response
  baseUrl : String
  isFalsy : Response → Bool
  isInternal : String → Bool
  recordBroken : Nat → Nat → Bool
  maxPages : Nat

/-- The link-drop test of the crawl loop (src/web-app line 425,
src/backend line 358): skip when the resolved URL carries a fragment or
the raw href uses a `javascript:`, `mailto:` or `tel:` pseudo-scheme. -/
def dropLink (pageUrl href : String) : Bool :=
  (urlparse (urljoin pageUrl href)).fragment ≠ "" ||
    strStartsWith href "javascript:" || strStartsWith href "mailto:" ||
    strStartsWith href "tel:"

/-- One iteration of the link loop of `crawl_page` (src/web-app lines
419-437): resolve the href, drop it per `dropLink`, otherwise record it in
`all_links` and either recurse (internal, unvisited) or record it as
external. `recur` is the recursive `crawl_page` call. -/
def linkStep (e : Engine) (recur : String → CrawlState → CrawlState)
    (pageUrl : String) (acc : CrawlState) (href : String) : CrawlState :=
  let full_url := urljoin pageUrl href
  let parsed := urlparse full_url
  if dropLink pageUrl href then acc
  else
    let acc := { acc with allLinks := acc.allLinks.insert full_url }
    if e.isInternal parsed.netloc then
      if full_url ∈ acc.visited then acc else recur full_url acc
    else
      { acc with externalLinks := acc.externalLinks.insert full_url }

/-- Mark a URL visited; the `fetchLog` append is the instrumentation
point recording that the fetcher is invoked next (marking happens strictly
before the fetch in the source, lines 363-365). -/
def markVisited (url : String) (s : CrawlState) : CrawlState :=
  { s with visited := url :: s.visited, fetchLog := s.fetchLog ++ [url] }

/-- The broken-link record for a failed fetch (lines 366-373). -/
def fetchFailEntry (url page : String) : BrokenLink :=
  ⟨url, .failedFetch, page, "Connection timeout or network error"⟩

/-- The broken-link record for a disqualifying HTTP status (lines
386-393). -/
def httpErrorEntry (url page : String) (status : Nat) : BrokenLink :=
  ⟨url, .http status, page, "HTTP " ++ toString status ++ " error"⟩

/-- The redirect check (lines 375-381): when the response's redirect
history is non-empty, append a redirect record. -/
def redirectStep (url : String) (r : Response) (s : CrawlState) : CrawlState :=
  if r.history ≠ [] then
    { s with redirects := s.redirects ++ [RedirectRecord.mk url r.url r.history] }
  else s

/-- Page data and detector output appended for a parsed page (lines
396-415). -/
def recordAudit (baseUrl : String) (r : Response) (url : String)
    (s : CrawlState) : CrawlState :=
  let soup := r.doc
  { s with
    pagesData := s.pagesData ++ [PageData.mk url soup.pageTitle]
    issues := { s.issues with
      warnings := s.issues.warnings ++
        check_seo_elements baseUrl soup url ++
        check_images baseUrl soup url ++
        check_mobile_viewport baseUrl soup url
      critical := s.issues.critical ++
        check_security_headers r.headers ++
        check_render_blocking_resources baseUrl soup url } }

/-- Embedding of `crawl_page` (src/web-app lines 353-437, src/backend lines
268-383), fuel-indexed: the Python recursion has no fuel, but every claim
is either fuel-uniform or evaluated at sufficient fuel. Steps in source
order: dedupe/budget guard, mark visited, fetch (logged), the
`if not response:` fetch-failure branch (taken when the fetcher returned
nothing or a falsy response, per the engine's truthiness), redirect
record, error-status policy, page data, detectors, link loop. -/
def crawlPage (e : Engine) : Nat → String → CrawlState → CrawlState
  | 0, _, s => s
  | Nat.succ n, url, s =>
    if url ∈ s.visited ∨ s.visited.length ≥ e.maxPages then s
    else
      let page := pageOf e.baseUrl url
      let s := markVisited url s
      match e.fetch url with
      | none =>
        { s with brokenLinks := s.brokenLinks ++ [fetchFailEntry url page] }
      | some r =>
        if e.isFalsy r then
          { s with brokenLinks := s.brokenLinks ++ [fetchFailEntry url page] }
        else
        let s := redirectStep url r s
        if e.recordBroken r.status_code r.contentLen then
          { s with brokenLinks := s.brokenLinks ++
              [httpErrorEntry url page r.status_code] }
        else
          r.doc.anchors.foldl (linkStep e (crawlPage e n) url)
            (recordAudit e.baseUrl r url s)

/-- Engine assembled as in the web-app `WebsiteAuditor.__init__` (lines
37-59): `base_url.rstrip('/')`, `domain = urlparse(base_url).netloc`. -/
def webAppEngine (fetch : String → Option Response) (base_url : String)
    (max_pages : Nat) : Engine :=
  let domain := (urlparse base_url).netloc
  { fetch := fetch, baseUrl := rstripSlash base_url
    isFalsy := webAppFalsy
    isInternal := fun netloc => webAppIsInternal domain netloc
    recordBroken := webAppRecordBroken, maxPages := max_pages }

/-- Engine assembled as in the backend `WebsiteAuditor.__init__`: plain
`requests` fetches, whose responses are falsy for every 400-599 status. -/
def backendEngine (fetch : String → Option Response) (base_url : String)
    (max_pages : Nat) : Engine :=
  let domain := (urlparse base_url).netloc
  { fetch := fetch, baseUrl := rstripSlash base_url
    isFalsy := backendFalsy
    isInternal := fun netloc => backendIsInternal domain netloc
    recordBroken := backendRecordBroken, maxPages := max_pages }

/-- What the Selenium driver yields for a loaded page: the page source
(abstracted to its UTF-8 byte length plus its parse) and the current URL. -/
structure SelPage where
  sourceLen : Nat
  currentUrl : String
  doc : Doc
deriving Repr

/-- Embedding of the Selenium-backed `fetch_page` (src/web-app lines
97-145): every successful fetch is wrapped in a `FakeResponse` with
`status_code = 200`, empty `headers` and empty `history`. -/
def seleniumFetch (web : String → Option SelPage) :
    String → Option Response :=
  fun url => (web url).map (fun p =>
    { status_code := 200, contentLen := p.sourceLen, url := p.currentUrl
      history := [], headers := [], doc := p.doc })

/-! ### Helper lemmas about the crawl -/

theorem foldl_inv {α β : Type _} (f : β → α → β) (P : β → Prop)
    (h : ∀ b a, P b → P (f b a)) :
    ∀ (l : List α) (b : β), P b → P (l.foldl f b) := by
  intro l
  induction l with
  | nil => intro b hb; exact hb
  | cons a t ih => intro b hb; exact ih (f b a) (h b a hb)

/-- A state predicate preserved by every primitive update performed by
`crawl_page` is preserved by the whole crawl, whatever the engine. The
hypotheses carry the context in which each update fires. -/
theorem crawlPage_inv (e : Engine) (P : CrawlState → Prop)
    (hMark : ∀ s url, url ∉ s.visited → s.visited.length < e.maxPages →
      P s → P (markVisited url s))
    (hFetchFail : ∀ s url page, e.fetch url = none → P s →
      P { s with brokenLinks := s.brokenLinks ++ [fetchFailEntry url page] })
    (hFalsy : ∀ s url page r, e.fetch url = some r → e.isFalsy r = true →
      P s →
      P { s with brokenLinks := s.brokenLinks ++ [fetchFailEntry url page] })
    (hRedir : ∀ s url r, e.fetch url = some r → r.history ≠ [] → P s →
      P { s with redirects := s.redirects ++
            [RedirectRecord.mk url r.url r.history] })
    (hHttp : ∀ s url page r, e.fetch url = some r →
      e.recordBroken r.status_code r.contentLen = true → P s →
      P { s with brokenLinks := s.brokenLinks ++
            [httpErrorEntry url page r.status_code] })
    (hAudit : ∀ s url r, e.fetch url = some r → P s →
      P (recordAudit e.baseUrl r url s))
    (hAll : ∀ s u, P s → P { s with allLinks := s.allLinks.insert u })
    (hExt : ∀ s u, P s → P { s with externalLinks := s.externalLinks.insert u }) :
    ∀ (n : Nat) (url : String) (s : CrawlState), P s → P (crawlPage e n url s) := by
  intro n
  induction n with
  | zero => intro url s hs; exact hs
  | succ n ih =>
    intro url s hs
    simp only [crawlPage]
    split
    · exact hs
    · next hguard =>
      push_neg at hguard
      obtain ⟨hmem, hlen⟩ := hguard
      have hP1 : P (markVisited url s) := hMark s url hmem hlen hs
      cases hfetch : e.fetch url with
      | none => exact hFetchFail _ url _ hfetch hP1
      | some r =>
        have hP2 : P (redirectStep url r (markVisited url s)) := by
          unfold redirectStep
          split
          · next hh => exact hRedir _ url r hfetch hh hP1
          · exact hP1
        simp only [hfetch]
        split
        · next hfal => exact hFalsy _ url _ r hfetch hfal hP1
        · split
          · next hrb => exact hHttp _ url _ r hfetch hrb hP2
          · refine foldl_inv _ P ?_ _ _ (hAudit _ url r hfetch hP2)
            intro b a hb
            unfold linkStep
            simp only
            split
            · exact hb
            · split
              · split
                · exact hAll b _ hb
                · exact ih _ _ (hAll b _ hb)
              · exact hExt _ _ (hAll b _ hb)

/-- The guard of `crawl_page`: a state whose visited set has reached the
budget is returned unchanged, whatever the fuel. -/
theorem crawlPage_stop (e : Engine) (n : Nat) (url : String) (s : CrawlState)
    (h : s.visited.length ≥ e.maxPages) : crawlPage e n url s = s := by
  cases n with
  | zero => rfl
  | succ n => simp only [crawlPage]; rw [if_pos (Or.inr h)]

theorem crawl_visited_le (e : Engine) (n : Nat) (url : String) (s : CrawlState)
    (hs : s.visited.length ≤ e.maxPages) :
    (crawlPage e n url s).visited.length ≤ e.maxPages := by
  refine crawlPage_inv e (fun st => st.visited.length ≤ e.maxPages)
    ?_ ?_ ?_ ?_ ?_ ?_ ?_ ?_ n url s hs
  · intro s url _ hl _
    simp only [markVisited, List.length_cons]
    omega
  · intro s url page _ hP; exact hP
  · intro s url page r _ _ hP; exact hP
  · intro s url r _ _ hP; exact hP
  · intro s url page r _ _ hP; exact hP
  · intro s url r _ hP; exact hP
  · intro s u hP; exact hP
  · intro s u hP; exact hP

theorem crawl_dedupe_aux (e : Engine) (n : Nat) (url : String) (s : CrawlState)
    (h : s.visited.Nodup ∧ s.fetchLog.Nodup ∧ ∀ x ∈ s.fetchLog, x ∈ s.visited) :
    (crawlPage e n url s).visited.Nodup ∧
      (crawlPage e n url s).fetchLog.Nodup ∧
      ∀ x ∈ (crawlPage e n url s).fetchLog, x ∈ (crawlPage e n url s).visited := by
  refine crawlPage_inv e
    (fun st => st.visited.Nodup ∧ st.fetchLog.Nodup ∧
      ∀ x ∈ st.fetchLog, x ∈ st.visited) ?_ ?_ ?_ ?_ ?_ ?_ ?_ ?_ n url s h
  · intro s url hm _ hP
    obtain ⟨h1, h2, h3⟩ := hP
    simp only [markVisited]
    refine ⟨List.nodup_cons.2 ⟨hm, h1⟩, ?_, ?_⟩
    · rw [List.nodup_append]
      refine ⟨h2, List.nodup_singleton _, ?_⟩
      intro x hx hx'
      rw [List.mem_singleton] at hx'
      subst hx'
      exact hm (h3 _ hx)
    · intro x hx
      rw [List.mem_append, List.mem_singleton] at hx
      rcases hx with hx | hx
      · exact List.mem_cons_of_mem _ (h3 _ hx)
      · subst hx; exact List.mem_cons_self _ _
  · intro s url page _ hP; exact hP
  · intro s url page r _ _ hP; exact hP
  · intro s url r _ _ hP; exact hP
  · intro s url page r _ _ hP; exact hP
  · intro s url r _ hP; exact hP
  · intro s u hP; exact hP
  · intro s u hP; exact hP

/-! ### C2: the page-budget bound -/

/-- C2: for every page budget B ≥ 0 and every engine, the visited set never
exceeds B elements (as an invariant preserved from any state within budget,
in particular at every point during and after a crawl from the empty
state), and `crawl_page` on a state whose visited set has already reached B
returns it unchanged — no marking, no fetch, no recursion. -/
theorem claim_budget_bound (e : Engine) (n : Nat) (url : String)
    (s : CrawlState) (hs : s.visited.length ≤ e.maxPages) :
    (crawlPage e n url s).visited.length ≤ e.maxPages ∧
    (s.visited.length ≥ e.maxPages → crawlPage e n url s = s) :=
  ⟨crawl_visited_le e n url s hs, fun h => crawlPage_stop e n url s h⟩

def stopEngine : Engine := webAppEngine (fun _ => none) "http://example.com" 0

/-- Witness for `claim_budget_bound` at budget 0 and the empty state. -/
theorem claim_budget_bound_witness :
    (crawlPage stopEngine 1 "http://example.com" initState).visited.length ≤
        stopEngine.maxPages ∧
      (initState.visited.length ≥ stopEngine.maxPages →
        crawlPage stopEngine 1 "http://example.com" initState = initState) :=
  claim_budget_bound stopEngine 1 "http://example.com" initState (by decide)

/-! ### C3: dedupe — a URL is visited and fetched at most once -/

/-- C3 (amended): whatever the engine and the seed, after a crawl from the
empty state every URL occurs at most once in the visited set, the fetcher
has been invoked on it at most once, and every fetched URL had been marked
visited (the mark precedes the fetch, so no recursion path re-fetches a
visited URL). The original claim's "exactly once" fails: a URL appearing
twice as a link target may be fetched zero times (see the
counterexample). -/
theorem claim_fetch_at_most_once (e : Engine) (n : Nat) (seed u : String) :
    (crawlPage e n seed initState).visited.count u ≤ 1 ∧
    (crawlPage e n seed initState).fetchLog.count u ≤ 1 ∧
    ∀ x ∈ (crawlPage e n seed initState).fetchLog,
      x ∈ (crawlPage e n seed initState).visited := by
  have h := crawl_dedupe_aux e n seed initState
    ⟨List.nodup_nil, List.nodup_nil, by intro x hx; cases hx⟩
  exact ⟨List.nodup_iff_count_le_one.1 h.1 u,
    List.nodup_iff_count_le_one.1 h.2.1 u, h.2.2⟩

/-- A page that occurs everywhere in the scenarios: no issue of interest. -/
def cleanDoc : Doc :=
  { titleTag := some (some "Home"), metaDescription := some (some "d")
    h1Count := 1, canonical := true, viewport := true, imgs := []
    stylesheets := [], scripts := [], anchors := [] }

/-- Scenario for the C3 counterexample: the seed page links twice to the
same external URL. -/
def doc3 : Doc :=
  { cleanDoc with anchors := ["http://other.com/x", "http://other.com/x"] }

def web3 : String → Option SelPage := fun u =>
  if u = "http://example.com" then
    some { sourceLen := 5000, currentUrl := "http://example.com", doc := doc3 }
  else none

def res3 : CrawlState :=
  crawlPage (webAppEngine (seleniumFetch web3) "http://example.com" 50) 3
    "http://example.com" initState

/-- C3 counterexample: `http://other.com/x` appears twice as a link target
during the audit, yet the visited set does not contain it and the fetcher
is never invoked on it (it is classified external), refuting "the visited
set contains that URL exactly once and the fetcher is invoked on it exactly
once". -/
theorem claim_fetch_once_cex :
    doc3.anchors.count "http://other.com/x" = 2 ∧
    res3.allLinks.count "http://other.com/x" = 1 ∧
    res3.visited.count "http://other.com/x" = 0 ∧
    res3.fetchLog.count "http://other.com/x" = 0 := by decide

/-! ### C1: the scoring formulas -/

/-- The specification's "number of distinct issue titles in category C":
the titles of the issues of that category, counted as a finite set. -/
def distinctTitleCount (issues : List Issue) (cat : String) : Nat :=
  ((issues.filter (fun i => i.category = cat)).map Issue.title).toFinset.card

theorem distinctTitleCount_eq (issues : List Issue) (cat : String) :
    distinctTitleCount issues cat = (uniqueTitles issues cat).length := by
  simp [distinctTitleCount, uniqueTitles, List.card_toFinset]

theorem floor_weighted (p s a b : ℕ) :
    (p * 30 + s * 25 + a * 20 + b * 25) / 100 =
      ⌊(0.30 * (p : ℚ) + 0.25 * (s : ℚ) + 0.20 * (a : ℚ) + 0.25 * (b : ℚ))⌋₊ := by
  have h : (0.30 * (p : ℚ) + 0.25 * (s : ℚ) + 0.20 * (a : ℚ) + 0.25 * (b : ℚ)) =
      ((p * 30 + s * 25 + a * 20 + b * 25 : ℕ) : ℚ) / ((100 : ℕ) : ℚ) := by
    push_cast
    ring
  rw [h, Nat.floor_div_nat, Nat.floor_natCast]

/-- C1: for every accumulated issue collection and broken-link list, the
sub-scores follow the documented formulas over distinct issue titles per
category (duplicates across pages collapse), and the overall score is the
floor of the weighted sub-score sum. -/
theorem claim_score_formulas (issues : IssuesState) (bl : List BrokenLink) :
    (((calculate_score issues bl).seo : ℤ) =
      max 0 (100 - 20 * distinctTitleCount issues.all "SEO")) ∧
    (((calculate_score issues bl).performance : ℤ) =
      max 0 (100 - 25 * distinctTitleCount issues.all "Performance")) ∧
    (((calculate_score issues bl).accessibility : ℤ) =
      max 0 (100 - 20 * distinctTitleCount issues.all "Accessibility")) ∧
    (((calculate_score issues bl).bestPractices : ℤ) =
      max 0 (100 - 15 * distinctTitleCount issues.all "Security"
        - 10 * distinctTitleCount issues.all "Mobile"
        - min (2 * (bl.length : ℤ)) 30)) ∧
    ((calculate_score issues bl).overall =
      ⌊(0.30 * ((calculate_score issues bl).performance : ℚ) +
        0.25 * ((calculate_score issues bl).seo : ℚ) +
        0.20 * ((calculate_score issues bl).accessibility : ℚ) +
        0.25 * ((calculate_score issues bl).bestPractices : ℚ))⌋₊) := by
  refine ⟨?_, ?_, ?_, ?_, ?_⟩
  · simp only [calculate_score, distinctTitleCount_eq]
    omega
  · simp only [calculate_score, distinctTitleCount_eq]
    omega
  · simp only [calculate_score, distinctTitleCount_eq]
    omega
  · simp only [calculate_score, distinctTitleCount_eq]
    omega
  · simp only [calculate_score]
    exact floor_weighted _ _ _ _

/-! ### C6: the missing-everything scenario -/

/-- The page of the missing-everything scenario: no title, no meta
description, no H1, no canonical, no viewport, 3 images without alt, 4
blocking stylesheets, 2 blocking scripts; the Selenium fetch supplies no
security headers. -/
def doc6 : Doc :=
  { titleTag := none, metaDescription := none, h1Count := 0
    canonical := false, viewport := false
    imgs := [⟨none, some "a.png"⟩, ⟨none, some "b.png"⟩, ⟨none, some "c.png"⟩]
    stylesheets := [⟨none⟩, ⟨none⟩, ⟨none⟩, ⟨none⟩]
    scripts := [⟨none, none⟩, ⟨none, none⟩]
    anchors := [] }

def web6 : String → Option SelPage := fun u =>
  if u = "http://example.com" then
    some { sourceLen := 5000, currentUrl := "http://example.com", doc := doc6 }
  else none

def res6 : CrawlState :=
  crawlPage (webAppEngine (seleniumFetch web6) "http://example.com" 50) 2
    "http://example.com" initState

/-- C6: the missing-everything page produces 4 distinct SEO titles, 1
Accessibility, 2 Performance, 4 Security and 1 Mobile title, and scores
seo=20, accessibility=80, performance=50, bestPractices=30, overall=43. -/
theorem claim_missing_everything :
    distinctTitleCount res6.issues.all "SEO" = 4 ∧
    distinctTitleCount res6.issues.all "Accessibility" = 1 ∧
    distinctTitleCount res6.issues.all "Performance" = 2 ∧
    distinctTitleCount res6.issues.all "Security" = 4 ∧
    distinctTitleCount res6.issues.all "Mobile" = 1 ∧
    calculate_score res6.issues res6.brokenLinks =
      { overall := 43, performance := 50, seo := 20, accessibility := 80
        bestPractices := 30 } := by
  simp only [distinctTitleCount_eq]
  decide

/-! ### C8: unrecognized categories are silently ignored -/

/-- An issue whose category is outside the five enumerated values. -/
def bogusIssue : Issue :=
  { type := "warning", category := "Misc", title := "Something odd"
    url := none, page := none }

/-- C8 counterexample: the scoring algorithm does not fail on an
unrecognized category; it returns the ordinary all-clear scores, exactly as
if the issue were absent — a silent ignore, refuting "fails loudly". -/
theorem claim_unknown_category_cex :
    calculate_score ⟨[bogusIssue], [], []⟩ [] =
      { overall := 100, performance := 100, seo := 100, accessibility := 100
        bestPractices := 100 } ∧
    calculate_score ⟨[bogusIssue], [], []⟩ [] =
      calculate_score ⟨[], [], []⟩ [] := by decide

/-- C8 (amended): an issue whose category is outside the five enumerated
values is silently ignored by the scoring algorithm: it contributes to no
sub-score and the result is the same as without it. -/
theorem claim_unknown_category_ignored (i : Issue) (c w inf : List Issue)
    (bl : List BrokenLink)
    (h : i.category ∉
      (["SEO", "Performance", "Accessibility", "Security", "Mobile"] :
        List String)) :
    calculate_score ⟨i :: c, w, inf⟩ bl = calculate_score ⟨c, w, inf⟩ bl := by
  simp only [List.mem_cons, List.mem_singleton, not_or, List.not_mem_nil,
    not_false_iff, and_true] at h
  obtain ⟨h1, h2, h3, h4, h5⟩ := h
  simp [calculate_score, uniqueTitles, IssuesState.all, List.filter_cons,
    h1, h2, h3, h4, h5]

/-- Witness for `claim_unknown_category_ignored` at a concrete issue. -/
theorem claim_unknown_category_ignored_witness :
    calculate_score ⟨[bogusIssue], [], []⟩ [] =
      calculate_score ⟨[], [], []⟩ [] :=
  claim_unknown_category_ignored bogusIssue [] [] [] [] (by decide)

/-! ### C9: shape and order of the recommendation list -/

theorem exampleUrls_le_five (issues : List Issue) (cat : String) :
    (exampleUrls issues cat).length ≤ 5 := by
  simp only [exampleUrls, issueExamples, List.length_map, List.length_take]
  omega

/-- C9 (amended): recommendations appear in the fixed order broken links,
SEO, Performance, Security, Accessibility; the broken-links entry is
emitted exactly when the broken-link list is non-empty and samples up to 10
URLs; each category entry is emitted exactly when the category has at least
one distinct issue title, carries the distinct-title count, and samples at
most 5 affected URLs — except the Security entry, which carries no sample
URLs at all. The output is a pure function of the input. -/
theorem claim_recommendations_shape (issues : IssuesState)
    (bl : List BrokenLink) :
    ((generate_recommendations issues bl).map Recommendation.category =
      (if bl ≠ [] then ["Broken Links"] else []) ++
      (if 0 < distinctTitleCount issues.all "SEO" then ["SEO"] else []) ++
      (if 0 < distinctTitleCount issues.all "Performance" then ["Performance"]
        else []) ++
      (if 0 < distinctTitleCount issues.all "Security" then ["Security"]
        else []) ++
      (if 0 < distinctTitleCount issues.all "Accessibility"
        then ["Accessibility"] else [])) ∧
    (∀ rec ∈ generate_recommendations issues bl,
      (rec.category = "Broken Links" →
        rec.affected_urls = some ((bl.take 10).map BrokenLink.url) ∧
        ((bl.take 10).map BrokenLink.url).length ≤ 10 ∧
        rec.affected_count = bl.length) ∧
      (rec.category = "Security" →
        rec.affected_urls = none ∧
        rec.affected_count = distinctTitleCount issues.all "Security") ∧
      (rec.category = "SEO" ∨ rec.category = "Performance" ∨
          rec.category = "Accessibility" →
        rec.affected_count = distinctTitleCount issues.all rec.category ∧
        ∃ l, rec.affected_urls = some l ∧ l.length ≤ 5)) := by
  constructor
  · simp only [generate_recommendations, distinctTitleCount_eq,
      List.map_append, apply_ite (List.map Recommendation.category),
      List.map_cons, List.map_nil, gt_iff_lt, List.length_pos]
  · intro rec hrec
    simp only [generate_recommendations, List.mem_append] at hrec
    have htake : ((bl.take 10).map BrokenLink.url).length ≤ 10 := by
      simp only [List.length_map, List.length_take]
      omega
    rcases hrec with ((((h | h) | h) | h) | h)
    · split at h
      · rw [List.mem_singleton] at h
        subst h
        refine ⟨fun _ => ⟨rfl, htake, rfl⟩, fun hc => ?_, fun hc => ?_⟩
        · simp at hc
        · rcases hc with hc | hc | hc <;> simp at hc
      · cases h
    · split at h
      · rw [List.mem_singleton] at h
        subst h
        refine ⟨fun hc => ?_, fun hc => ?_, fun _ => ⟨?_, ?_⟩⟩
        · simp at hc
        · simp at hc
        · simp [distinctTitleCount_eq]
        · exact ⟨exampleUrls issues.all "SEO", rfl, exampleUrls_le_five _ _⟩
      · cases h
    · split at h
      · rw [List.mem_singleton] at h
        subst h
        refine ⟨fun hc => ?_, fun hc => ?_, fun _ => ⟨?_, ?_⟩⟩
        · simp at hc
        · simp at hc
        · simp [distinctTitleCount_eq]
        · exact ⟨exampleUrls issues.all "Performance", rfl,
            exampleUrls_le_five _ _⟩
      · cases h
    · split at h
      · rw [List.mem_singleton] at h
        subst h
        refine ⟨fun hc => ?_,
          fun _ => ⟨rfl, (distinctTitleCount_eq issues.all "Security").symm⟩,
          fun hc => ?_⟩
        · simp at hc
        · rcases hc with hc | hc | hc <;> simp at hc
      · cases h
    · split at h
      · rw [List.mem_singleton] at h
        subst h
        refine ⟨fun hc => ?_, fun hc => ?_, fun _ => ⟨?_, ?_⟩⟩
        · simp at hc
        · simp at hc
        · simp [distinctTitleCount_eq]
        · exact ⟨exampleUrls issues.all "Accessibility", rfl,
            exampleUrls_le_five _ _⟩
      · cases h

/-- An issue collection holding exactly one Security issue. -/
def secOnlyIssues : IssuesState :=
  { critical := [⟨"critical", "Security",
      "Missing security header: X-Frame-Options", none, none⟩]
    warnings := [], info := [] }

/-- An issue collection holding six SEO issues with six distinct titles and
six distinct affected URLs. -/
def seoSixIssues : IssuesState :=
  { critical := []
    warnings :=
      [⟨"warning", "SEO", "t1", some "http://e.com/1", some "/1"⟩,
       ⟨"warning", "SEO", "t2", some "http://e.com/2", some "/2"⟩,
       ⟨"warning", "SEO", "t3", some "http://e.com/3", some "/3"⟩,
       ⟨"warning", "SEO", "t4", some "http://e.com/4", some "/4"⟩,
       ⟨"warning", "SEO", "t5", some "http://e.com/5", some "/5"⟩,
       ⟨"warning", "SEO", "t6", some "http://e.com/6", some "/6"⟩]
    info := [] }

/-- C9 counterexample: the Security entry carries no sample affected URLs
at all, and a category entry with six affected URLs samples only five —
refuting "each entry carrying the count of distinct issue titles and up to
10 sample affected URLs" in its listing sense. -/
theorem claim_recommendations_cex :
    ((generate_recommendations secOnlyIssues []).map
        Recommendation.affected_urls = [none]) ∧
    ((generate_recommendations seoSixIssues []).map
        Recommendation.affected_count = [6]) ∧
    ((generate_recommendations seoSixIssues []).map
        Recommendation.affected_urls =
      [some ["http://e.com/1", "http://e.com/2", "http://e.com/3",
        "http://e.com/4", "http://e.com/5"]]) := by decide

/-- The single recommendation produced by `secOnlyIssues`. -/
def secRec : Recommendation :=
  { priority := "critical", category := "Security"
    title := "1 security issues found"
    description := "Missing security headers leave site vulnerable"
    affected_count := 1
    affected_urls := none
    recommendation := "Configure server to include security headers: X-Content-Type-Options: nosniff, X-Frame-Options: SAMEORIGIN, Strict-Transport-Security, Content-Security-Policy" }

set_option maxRecDepth 4000 in
/-- Witness for `claim_recommendations_shape` at `secOnlyIssues`. -/
theorem claim_recommendations_shape_witness :
    secRec.affected_urls = none ∧
      secRec.affected_count = distinctTitleCount secOnlyIssues.all "Security" :=
  ((claim_recommendations_shape secOnlyIssues []).2 secRec (by decide)).2.1 rfl

/-! ### Unfolding lemmas for a single crawl step -/

@[simp] theorem markVisited_visited (url : String) (s : CrawlState) :
    (markVisited url s).visited = url :: s.visited := rfl

@[simp] theorem markVisited_brokenLinks (url : String) (s : CrawlState) :
    (markVisited url s).brokenLinks = s.brokenLinks := rfl

@[simp] theorem markVisited_pagesData (url : String) (s : CrawlState) :
    (markVisited url s).pagesData = s.pagesData := rfl

@[simp] theorem markVisited_redirects (url : String) (s : CrawlState) :
    (markVisited url s).redirects = s.redirects := rfl

@[simp] theorem markVisited_issues (url : String) (s : CrawlState) :
    (markVisited url s).issues = s.issues := rfl

@[simp] theorem redirectStep_brokenLinks (url : String) (r : Response)
    (s : CrawlState) : (redirectStep url r s).brokenLinks = s.brokenLinks := by
  unfold redirectStep; split <;> rfl

@[simp] theorem redirectStep_pagesData (url : String) (r : Response)
    (s : CrawlState) : (redirectStep url r s).pagesData = s.pagesData := by
  unfold redirectStep; split <;> rfl

@[simp] theorem redirectStep_issues (url : String) (r : Response)
    (s : CrawlState) : (redirectStep url r s).issues = s.issues := by
  unfold redirectStep; split <;> rfl

@[simp] theorem recordAudit_brokenLinks (baseUrl : String) (r : Response)
    (url : String) (s : CrawlState) :
    (recordAudit baseUrl r url s).brokenLinks = s.brokenLinks := rfl

@[simp] theorem recordAudit_pagesData (baseUrl : String) (r : Response)
    (url : String) (s : CrawlState) :
    (recordAudit baseUrl r url s).pagesData =
      s.pagesData ++ [PageData.mk url r.doc.pageTitle] := rfl

theorem crawlPage_some_unfold (e : Engine) (n : Nat) (url : String)
    (r : Response) (s : CrawlState) (hv : url ∉ s.visited)
    (hb : s.visited.length < e.maxPages) (hf : e.fetch url = some r)
    (hfal : e.isFalsy r = false) :
    crawlPage e (n + 1) url s =
      if e.recordBroken r.status_code r.contentLen then
        { redirectStep url r (markVisited url s) with
          brokenLinks := (redirectStep url r (markVisited url s)).brokenLinks ++
            [httpErrorEntry url (pageOf e.baseUrl url) r.status_code] }
      else
        r.doc.anchors.foldl (linkStep e (crawlPage e n) url)
          (recordAudit e.baseUrl r url (redirectStep url r (markVisited url s))) := by
  simp only [crawlPage]
  rw [if_neg (not_or.2 ⟨hv, by omega⟩), hf]
  dsimp only
  rw [if_neg (by simp [hfal])]

theorem crawlPage_falsy_unfold (e : Engine) (n : Nat) (url : String)
    (r : Response) (s : CrawlState) (hv : url ∉ s.visited)
    (hb : s.visited.length < e.maxPages) (hf : e.fetch url = some r)
    (hfal : e.isFalsy r = true) :
    crawlPage e (n + 1) url s =
      { markVisited url s with
        brokenLinks := (markVisited url s).brokenLinks ++
          [fetchFailEntry url (pageOf e.baseUrl url)] } := by
  simp only [crawlPage]
  rw [if_neg (not_or.2 ⟨hv, by omega⟩), hf]
  dsimp only
  rw [if_pos hfal]

theorem crawlPage_fail_unfold (e : Engine) (n : Nat) (url : String)
    (s : CrawlState) (hv : url ∉ s.visited)
    (hb : s.visited.length < e.maxPages) (hf : e.fetch url = none) :
    crawlPage e (n + 1) url s =
      { markVisited url s with
        brokenLinks := (markVisited url s).brokenLinks ++
          [fetchFailEntry url (pageOf e.baseUrl url)] } := by
  simp only [crawlPage]
  rw [if_neg (not_or.2 ⟨hv, by omega⟩), hf]

theorem crawl_broken_step (e : Engine) (n : Nat) (url : String)
    (r : Response) (s : CrawlState) (hv : url ∉ s.visited)
    (hb : s.visited.length < e.maxPages) (hf : e.fetch url = some r)
    (hfal : e.isFalsy r = false)
    (hrb : e.recordBroken r.status_code r.contentLen = true) :
    (crawlPage e (n + 1) url s).brokenLinks =
      s.brokenLinks ++ [httpErrorEntry url (pageOf e.baseUrl url) r.status_code] ∧
    (crawlPage e (n + 1) url s).pagesData = s.pagesData := by
  rw [crawlPage_some_unfold e n url r s hv hb hf hfal, if_pos hrb]
  constructor <;> simp

theorem crawl_falsy_step (e : Engine) (n : Nat) (url : String)
    (r : Response) (s : CrawlState) (hv : url ∉ s.visited)
    (hb : s.visited.length < e.maxPages) (hf : e.fetch url = some r)
    (hfal : e.isFalsy r = true) :
    (crawlPage e (n + 1) url s).brokenLinks =
      s.brokenLinks ++ [fetchFailEntry url (pageOf e.baseUrl url)] ∧
    (crawlPage e (n + 1) url s).pagesData = s.pagesData := by
  rw [crawlPage_falsy_unfold e n url r s hv hb hf hfal]
  constructor <;> simp

theorem crawl_parse_step (e : Engine) (n : Nat) (url : String)
    (r : Response) (s : CrawlState) (hv : url ∉ s.visited)
    (hb : s.visited.length < e.maxPages) (hf : e.fetch url = some r)
    (hfal : e.isFalsy r = false)
    (hrb : e.recordBroken r.status_code r.contentLen = false)
    (hleaf : r.doc.anchors = []) :
    (crawlPage e (n + 1) url s).brokenLinks = s.brokenLinks ∧
    (crawlPage e (n + 1) url s).pagesData =
      s.pagesData ++ [PageData.mk url r.doc.pageTitle] := by
  rw [crawlPage_some_unfold e n url r s hv hb hf hfal, if_neg (by simp [hrb]),
    hleaf]
  constructor <;> simp

theorem crawl_allLinks_mem (e : Engine) (x : String) (n : Nat) (url : String)
    (s : CrawlState) (h : x ∈ s.allLinks) :
    x ∈ (crawlPage e n url s).allLinks := by
  refine crawlPage_inv e (fun st => x ∈ st.allLinks)
    ?_ ?_ ?_ ?_ ?_ ?_ ?_ ?_ n url s h
  · intro s url _ _ hP; exact hP
  · intro s url page _ hP; exact hP
  · intro s url page r _ _ hP; exact hP
  · intro s url r _ _ hP; exact hP
  · intro s url page r _ _ hP; exact hP
  · intro s url r _ hP; exact hP
  · intro s u hP; exact List.mem_insert_iff.2 (Or.inr hP)
  · intro s u hP; exact hP

theorem crawl_critical_mem (e : Engine) (x : Issue) (n : Nat) (url : String)
    (s : CrawlState) (h : x ∈ s.issues.critical) :
    x ∈ (crawlPage e n url s).issues.critical := by
  refine crawlPage_inv e (fun st => x ∈ st.issues.critical)
    ?_ ?_ ?_ ?_ ?_ ?_ ?_ ?_ n url s h
  · intro s url _ _ hP; exact hP
  · intro s url page _ hP; exact hP
  · intro s url page r _ _ hP; exact hP
  · intro s url r _ _ hP; exact hP
  · intro s url page r _ _ hP; exact hP
  · intro s url r _ hP
    simp only [recordAudit]
    exact List.mem_append.2 (Or.inl (List.mem_append.2 (Or.inl hP)))
  · intro s u hP; exact hP
  · intro s u hP; exact hP

/-! ### C4: www / non-www site identity -/

/-- Scenario for the C4 counterexample: the seed page (seed given without
`www`) links to the same path on the bare host and on the `www` host. -/
def doc4 : Doc :=
  { cleanDoc with
    anchors := ["http://example.com/x", "http://www.example.com/x"] }

def web4 : String → Option SelPage := fun u =>
  if u = "http://example.com" then
    some { sourceLen := 5000, currentUrl := "http://example.com", doc := doc4 }
  else if u = "http://example.com/x" then
    some { sourceLen := 5000, currentUrl := "http://example.com/x"
           doc := cleanDoc }
  else if u = "http://www.example.com/x" then
    some { sourceLen := 5000, currentUrl := "http://www.example.com/x"
           doc := cleanDoc }
  else none

def res4 : CrawlState :=
  crawlPage (webAppEngine (seleniumFetch web4) "http://example.com" 50) 3
    "http://example.com" initState

/-- C4 counterexample: with the seed `http://example.com`, the Selenium
web-app engine crawls `http://example.com/x` but classifies
`http://www.example.com/x` as external and never visits it — the two
links are not classified identically. -/
theorem claim_www_symmetry_cex :
    "http://example.com/x" ∈ res4.visited ∧
    "http://www.example.com/x" ∉ res4.visited ∧
    res4.externalLinks = ["http://www.example.com/x"] := by decide

/-- C4 (amended): the backend engine classifies `http://example.com/x` and
`http://www.example.com/x` both as internal whether the seed host is
`example.com` or `www.example.com`; the Selenium web-app engine accepts
only an exact host match (or a host-less link), so the other `www` variant
is classified external under either seed. -/
theorem claim_www_symmetry_amended :
    (backendIsInternal "example.com"
        (urlparse "http://example.com/x").netloc = true ∧
      backendIsInternal "example.com"
        (urlparse "http://www.example.com/x").netloc = true ∧
      backendIsInternal "www.example.com"
        (urlparse "http://example.com/x").netloc = true ∧
      backendIsInternal "www.example.com"
        (urlparse "http://www.example.com/x").netloc = true) ∧
    (webAppIsInternal "example.com"
        (urlparse "http://example.com/x").netloc = true ∧
      webAppIsInternal "example.com"
        (urlparse "http://www.example.com/x").netloc = false ∧
      webAppIsInternal "www.example.com"
        (urlparse "http://www.example.com/x").netloc = true ∧
      webAppIsInternal "www.example.com"
        (urlparse "http://example.com/x").netloc = false) := by decide

/-! ### C5: error statuses, the 1000-byte override and the 415 exception -/

/-- A 415 response carrying 500 bytes of content. -/
def resp415 : Response :=
  { status_code := 415, contentLen := 500, url := "http://example.com"
    history := [], headers := [], doc := cleanDoc }

/-- A 500 response carrying 2000 bytes of content. -/
def resp500 : Response :=
  { status_code := 500, contentLen := 2000, url := "http://example.com"
    history := [], headers := [], doc := cleanDoc }

def res5a : CrawlState :=
  crawlPage (webAppEngine (fun _ => some resp415) "http://example.com" 50) 2
    "http://example.com" initState

def res5b : CrawlState :=
  crawlPage (backendEngine (fun _ => some resp500) "http://example.com" 50) 2
    "http://example.com" initState

def res5c : CrawlState :=
  crawlPage (backendEngine (fun _ => some resp415) "http://example.com" 50) 2
    "http://example.com" initState

/-- C5 counterexample: in the web-app engine a 415 response with content
(500 bytes) is recorded as a broken link with its HTTP status and not
parsed, refuting "a 415 status with content is always parsed"; in the
backend engine a 500 response with a 2000-byte body is falsy at
`if not response:` and is recorded as a fetch failure, not parsed,
refuting "status ≥ 400 and body ≥ 1000 bytes is parsed and audited like a
success"; a backend 415 with content is likewise a fetch failure, never
parsed. -/
theorem claim_error_status_cex :
    res5a.brokenLinks = [httpErrorEntry "http://example.com" "/" 415] ∧
    res5a.pagesData = [] ∧
    res5b.brokenLinks = [fetchFailEntry "http://example.com" "/"] ∧
    res5b.pagesData = [] ∧
    res5c.brokenLinks = [fetchFailEntry "http://example.com" "/"] ∧
    res5c.pagesData = [] := by decide

/-- C5 (amended): for a fetched response with status ≥ 400 on an unvisited
URL within budget (stated for leaf pages): the web-app engine — whose
FakeResponse is always truthy — records a broken link with the HTTP status
and skips parsing exactly when the body is under 1000 bytes, with no 415
exception; the backend engine never reaches its status checks for statuses
400-599, because `if not response:` is true of a `requests.Response` with
such a status, so every such response — 415 included, whatever the body
size — is recorded as a fetch failure ("Failed to fetch") and never
parsed. -/
theorem claim_error_status_amended (fetch : String → Option Response)
    (burl : String) (m n : Nat) (url : String) (r : Response) (s : CrawlState)
    (hv : url ∉ s.visited) (hb : s.visited.length < m)
    (hf : fetch url = some r) (hst : 400 ≤ r.status_code)
    (hleaf : r.doc.anchors = []) :
    (r.contentLen < 1000 →
      (crawlPage (webAppEngine fetch burl m) (n + 1) url s).brokenLinks =
        s.brokenLinks ++
          [httpErrorEntry url (pageOf (rstripSlash burl) url) r.status_code] ∧
      (crawlPage (webAppEngine fetch burl m) (n + 1) url s).pagesData =
        s.pagesData) ∧
    (1000 ≤ r.contentLen →
      (crawlPage (webAppEngine fetch burl m) (n + 1) url s).brokenLinks =
        s.brokenLinks ∧
      (crawlPage (webAppEngine fetch burl m) (n + 1) url s).pagesData =
        s.pagesData ++ [PageData.mk url r.doc.pageTitle]) ∧
    (r.status_code < 600 →
      (crawlPage (backendEngine fetch burl m) (n + 1) url s).brokenLinks =
        s.brokenLinks ++
          [fetchFailEntry url (pageOf (rstripSlash burl) url)] ∧
      (crawlPage (backendEngine fetch burl m) (n + 1) url s).pagesData =
        s.pagesData) := by
  refine ⟨?_, ?_, ?_⟩
  · intro hlt
    exact crawl_broken_step (webAppEngine fetch burl m) n url r s hv hb hf rfl
      (by simp [webAppEngine, webAppRecordBroken, Bool.and_eq_true,
        decide_eq_true_eq]; exact ⟨hst, hlt⟩)
  · intro hge
    exact crawl_parse_step (webAppEngine fetch burl m) n url r s hv hb hf rfl
      (by simp [webAppEngine, webAppRecordBroken]; omega) hleaf
  · intro hlt600
    exact crawl_falsy_step (backendEngine fetch burl m) n url r s hv hb hf
      (by simp [backendEngine, backendFalsy, Bool.and_eq_true,
        decide_eq_true_eq]; exact ⟨hst, hlt600⟩)

/-- Witness for `claim_error_status_amended`: the 415/500-byte response on
the web-app engine, from the empty state. -/
theorem claim_error_status_amended_witness :
    (crawlPage (webAppEngine (fun _ => some resp415) "http://example.com" 50)
        2 "http://example.com" initState).brokenLinks =
      initState.brokenLinks ++
        [httpErrorEntry "http://example.com"
          (pageOf (rstripSlash "http://example.com") "http://example.com")
          resp415.status_code] :=
  ((claim_error_status_amended (fun _ => some resp415) "http://example.com"
    50 1 "http://example.com" resp415 initState (by decide) (by decide) rfl
    (by decide) rfl).1 (by decide)).1

/-! ### C7: which discovered links are dropped -/

/-- C7 (amended): a discovered href is dropped — neither recorded in the
link set, nor classified, nor crawled — exactly when the resolved URL
carries a non-empty fragment or the raw href starts with `javascript:`,
`mailto:` or `tel:`. In particular a link to a different path that merely
carries a fragment is dropped too (see the counterexample), not crawled as
the original claim states. -/
theorem claim_link_drop (e : Engine) (n : Nat) (pageUrl href : String)
    (acc : CrawlState) :
    (dropLink pageUrl href = true →
      linkStep e (crawlPage e n) pageUrl acc href = acc) ∧
    (dropLink pageUrl href = false →
      urljoin pageUrl href ∈
        (linkStep e (crawlPage e n) pageUrl acc href).allLinks) ∧
    (dropLink pageUrl href =
      ((urlparse (urljoin pageUrl href)).fragment ≠ "" ||
        strStartsWith href "javascript:" || strStartsWith href "mailto:" ||
        strStartsWith href "tel:")) := by
  refine ⟨?_, ?_, rfl⟩
  · intro h
    unfold linkStep
    rw [if_pos h]
  · intro h
    unfold linkStep
    rw [if_neg (by simp [h])]
    simp only
    split
    · split
      · exact List.mem_insert_self _ _
      · exact crawl_allLinks_mem e _ n _ _ (List.mem_insert_self _ _)
    · exact List.mem_insert_self _ _

/-- Witness for `claim_link_drop`: a fragment-only href is dropped, a
root-relative href is recorded. -/
theorem claim_link_drop_witness :
    linkStep stopEngine (crawlPage stopEngine 0) "http://example.com/"
        initState "#top" = initState ∧
    urljoin "http://example.com/" "/x" ∈
      (linkStep stopEngine (crawlPage stopEngine 0) "http://example.com/"
        initState "/x").allLinks :=
  ⟨(claim_link_drop stopEngine 0 "http://example.com/" "#top" initState).1
      (by decide),
   (claim_link_drop stopEngine 0 "http://example.com/" "/x" initState).2.1
      (by decide)⟩

/-- Scenario for the C7 counterexample: the seed page links to
`/other#section`; the page `/other` exists and is crawlable. -/
def doc7 : Doc := { cleanDoc with anchors := ["/other#section"] }

def doc7b : Doc := { cleanDoc with anchors := ["/other"] }

def web7 : String → Option SelPage := fun u =>
  if u = "http://example.com" then
    some { sourceLen := 5000, currentUrl := "http://example.com", doc := doc7 }
  else if u = "http://example.com/other" then
    some { sourceLen := 5000, currentUrl := "http://example.com/other"
           doc := cleanDoc }
  else none

def web7b : String → Option SelPage := fun u =>
  if u = "http://example.com" then
    some { sourceLen := 5000, currentUrl := "http://example.com", doc := doc7b }
  else if u = "http://example.com/other" then
    some { sourceLen := 5000, currentUrl := "http://example.com/other"
           doc := cleanDoc }
  else none

def res7 : CrawlState :=
  crawlPage (webAppEngine (seleniumFetch web7) "http://example.com" 50) 3
    "http://example.com" initState

def res7b : CrawlState :=
  crawlPage (webAppEngine (seleniumFetch web7b) "http://example.com" 50) 3
    "http://example.com" initState

/-- C7 counterexample: the link `/other#section` — a different path that
merely carries a fragment — is dropped entirely (not recorded, not
crawled), although the identical link without the fragment is internal and
is crawled. This refutes "a link to a different path that merely carries a
fragment is classified and, when internal, crawled". -/
theorem claim_link_drop_cex :
    res7.visited = ["http://example.com"] ∧
    res7.allLinks = [] ∧
    res7b.visited = ["http://example.com/other", "http://example.com"] ∧
    res7b.allLinks = ["http://example.com/other"] := by decide

/-! ### C10: consequences of the Selenium FakeResponse -/

theorem linkStep_critical_mem (e : Engine) (n : Nat) (pageUrl : String)
    (x : Issue) (b : CrawlState) (a : String)
    (hb : x ∈ b.issues.critical) :
    x ∈ (linkStep e (crawlPage e n) pageUrl b a).issues.critical := by
  unfold linkStep
  simp only
  split
  · exact hb
  · split
    · split
      · exact hb
      · exact crawl_critical_mem e x n _ _ hb
    · exact hb

/-- C10: every successful Selenium fetch is a FakeResponse with status 200,
empty headers and empty redirect history; the security-header detector on
empty headers emits all four missing-header critical issues; consequently a
Selenium-backed crawl never appends a redirect record, every broken link it
records carries the fetch-failure marker (never an HTTP status), and every
successfully fetched page contributes all four missing-security-header
issues. -/
theorem claim_selenium_fake_response :
    (∀ (web : String → Option SelPage) (url : String) (r : Response),
      seleniumFetch web url = some r →
      r.status_code = 200 ∧ r.headers = [] ∧ r.history = []) ∧
    (check_security_headers [] =
      [⟨"critical", "Security",
        "Missing security header: X-Content-Type-Options", none, none⟩,
       ⟨"critical", "Security",
        "Missing security header: X-Frame-Options", none, none⟩,
       ⟨"critical", "Security",
        "Missing security header: X-XSS-Protection", none, none⟩,
       ⟨"critical", "Security",
        "Missing security header: Strict-Transport-Security", none, none⟩]) ∧
    (∀ (web : String → Option SelPage) (burl : String) (m n : Nat)
        (url : String) (s : CrawlState),
      (crawlPage (webAppEngine (seleniumFetch web) burl m) n url s).redirects =
        s.redirects ∧
      (∀ b ∈ (crawlPage (webAppEngine (seleniumFetch web) burl m) n url
          s).brokenLinks,
        b ∈ s.brokenLinks ∨ b.status = BLStatus.failedFetch)) ∧
    (∀ (web : String → Option SelPage) (burl : String) (m n : Nat)
        (url : String) (s : CrawlState) (p : SelPage),
      url ∉ s.visited → s.visited.length < m → web url = some p →
      ∀ i ∈ check_security_headers [],
        i ∈ (crawlPage (webAppEngine (seleniumFetch web) burl m) (n + 1) url
          s).issues.critical) := by
  have hfacts : ∀ (web : String → Option SelPage) (url : String) (r : Response),
      seleniumFetch web url = some r →
      r.status_code = 200 ∧ r.headers = [] ∧ r.history = [] := by
    intro web url r h
    unfold seleniumFetch at h
    cases hw : web url with
    | none => rw [hw] at h; cases h
    | some p =>
      rw [hw, Option.map_some'] at h
      cases h
      exact ⟨rfl, rfl, rfl⟩
  refine ⟨hfacts, rfl, ?_, ?_⟩
  · intro web burl m n url s
    constructor
    · refine crawlPage_inv _ (fun st => st.redirects = s.redirects)
        ?_ ?_ ?_ ?_ ?_ ?_ ?_ ?_ n url s rfl
      · intro s' url' _ _ hP; exact hP
      · intro s' url' page _ hP; exact hP
      · intro s' url' page r _ _ hP; exact hP
      · intro s' url' r hf hh _
        exact absurd (hfacts web url' r hf).2.2 hh
      · intro s' url' page r _ _ hP; exact hP
      · intro s' url' r _ hP; exact hP
      · intro s' u hP; exact hP
      · intro s' u hP; exact hP
    · refine crawlPage_inv _
        (fun st => ∀ b ∈ st.brokenLinks,
          b ∈ s.brokenLinks ∨ b.status = BLStatus.failedFetch)
        ?_ ?_ ?_ ?_ ?_ ?_ ?_ ?_ n url s (fun b hb => Or.inl hb)
      · intro s' url' _ _ hP; exact hP
      · intro s' url' page _ hP b hb
        rw [List.mem_append, List.mem_singleton] at hb
        rcases hb with hb | hb
        · exact hP b hb
        · subst hb; exact Or.inr rfl
      · intro s' url' page r _ _ hP b hb
        rw [List.mem_append, List.mem_singleton] at hb
        rcases hb with hb | hb
        · exact hP b hb
        · subst hb; exact Or.inr rfl
      · intro s' url' r _ _ hP; exact hP
      · intro s' url' page r hf hrb _
        have h200 := (hfacts web url' r hf).1
        rw [h200] at hrb
        simp [webAppEngine, webAppRecordBroken] at hrb
      · intro s' url' r _ hP; exact hP
      · intro s' u hP; exact hP
      · intro s' u hP; exact hP
  · intro web burl m n url s p hv hb hw i hi
    have hf : (webAppEngine (seleniumFetch web) burl m).fetch url =
        some { status_code := 200, contentLen := p.sourceLen
               url := p.currentUrl, history := [], headers := []
               doc := p.doc } := by
      show seleniumFetch web url = _
      unfold seleniumFetch
      rw [hw, Option.map_some']
    rw [crawlPage_some_unfold _ n url _ s hv hb hf rfl,
      if_neg (by simp [webAppEngine, webAppRecordBroken])]
    refine foldl_inv _ (fun st => i ∈ st.issues.critical)
      (fun b a hmem => linkStep_critical_mem _ n url i b a hmem) _ _ ?_
    simp only [recordAudit]
    exact List.mem_append.2 (Or.inl (List.mem_append.2 (Or.inr hi)))

/-- Witness for `claim_selenium_fake_response`: in the missing-everything
scenario crawl, the first missing-security-header issue is present. -/
theorem claim_selenium_fake_response_witness :
    (⟨"critical", "Security",
      "Missing security header: X-Content-Type-Options", none, none⟩ : Issue) ∈
      res6.issues.critical :=
  claim_selenium_fake_response.2.2.2 web6 "http://example.com" 50 1
    "http://example.com" initState
    { sourceLen := 5000, currentUrl := "http://example.com", doc := doc6 }
    (by decide) (by decide) rfl _ (by decide)

end Audit
